import Mathlib

/-!
# A verification development for `cubedash` (datacube-explorer)

A shallow embedding of `src/cubedash/_pages.py`: the dataset/product data
model as the route handlers read it, the route handlers themselves, the
`next_date` helper, the stable sort of `product_datasets_page`, the
fixed-TTL memoization wrapper (`cachetools.func.ttl_cache`) and a
whole-application request step threading the index and the caches.

External carriers:
* `G` — geometry objects (datacube `Geometry`, shapely shapes and GeoJSON
  geometry dicts are collapsed onto one carrier; the conversions between
  them, `to_crs`, `asShape`, `__geo_interface__`, `unary_union`, are
  abstract operations bundled in `GeomOps`);
* `E` — Python exceptions (index / database errors, `KeyError` from
  `get_by_name_unsafe`, `AttributeError` from attribute access on `None`);
* `M` — metadata documents;
* `Q` — the search-query dictionaries built by `utils.query_to_search`;
* `D` — the dataset-info documents built by `build_dataset_info`.

Fallible Python calls are embedded as `Except E`-valued functions; an
uncaught exception is an `Except.error` that the monadic bind propagates,
exactly as Python unwinds the handler.
-/

namespace Cubedash

/-- Python `datetime.datetime` as the handlers build it: calendar fields
only (the handlers never use sub-second precision or timezones; the
`tzinfo=tz.tzutc()` argument of the timeline queries is dropped).  The
constructor's range validation (`1 <= month <= 12` etc.) is not modelled;
theorems that need it take explicit hypotheses. -/
structure Date where
  year : Nat
  month : Nat
  day : Nat
  hour : Nat
  minute : Nat
  second : Nat
deriving DecidableEq, Repr

/-- `datacube.model.Range`: the half-open time interval handed to the index
search functions. -/
structure TimeRange where
  rstart : Date
  rend : Date
deriving DecidableEq, Repr

/-- A datacube product (dataset type) as the pages read it: `p.name` and
`p.definition` (the definition document is kept opaque as a `String`). -/
structure Product where
  name : String
  definition : String
deriving DecidableEq, Repr

/-- A datacube dataset as the route handlers read it: `ds.id`,
`ds.type.name`, `ds.center_time`, `ds.extent` (a geometry or `None`), and
the two fields `dataset_page` reads: `ds.metadata.sources` (a mapping from
classifier name to a source dataset document, of which only the `'id'`
entry is used) and `ds.metadata_doc`.  `center_time` is embedded as an
integer timeline coordinate, `id` (a UUID) as a `Nat`. -/
structure Dataset (G M : Type) where
  id : Nat
  type_name : String
  center_time : Int
  extent : Option G
  metadata_sources : List (String × Nat)
  metadata_doc : M
deriving DecidableEq, Repr

/-- The external geometry library calls made by the two GeoJSON routes,
as abstract operations on the geometry carrier `G`:
`to_crs g crs` is `g.to_crs(CRS(crs))`, `geo_interface` is
`.__geo_interface__`, `asShape` is `shapely.geometry.asShape`, and
`unary_union` is `shapely.ops.unary_union` on a list of shapes. -/
structure GeomOps (G : Type) where
  to_crs : G → String → G
  geo_interface : G → G
  asShape : G → G
  unary_union : List G → G

/-- The read operations of the external datacube index
(`index = index_connect(...)`) that `_pages.py` calls.  Each is fallible:
an `Except.error` is an exception raised inside the index library.
`search_query q` is `index.datasets.search(**q)` without a limit — the
full list of matching datasets for query `q` (see `Index.search_limited`
for the limited form `_pages.py` actually calls). -/
structure Index (E G M Q : Type) where
  search : String → TimeRange → Except E (List (Dataset G M))
  search_query : Q → Except E (List (Dataset G M))
  count_product_through_time :
    String → String → TimeRange → Except E (List (TimeRange × Nat))
  count_by_product_through_time :
    String → String → TimeRange → Except E (List (String × List (TimeRange × Nat)))
  get_by_name_unsafe : String → Except E Product
  get_all_types : Except E (List Product)
  get : Nat → Bool → Except E (Option (Dataset G M))
  get_derived : Nat → Except E (List (Dataset G M))

/-- `index.datasets.search(**query, limit=n)`: datacube's documented
`limit` semantics — at most `n` results are returned; the model keeps the
first `n` of the full result list. -/
def Index.search_limited {E G M Q : Type} (idx : Index E G M Q) (q : Q) (n : Nat) :
    Except E (List (Dataset G M)) :=
  (idx.search_query q).map (fun l => l.take n)

/-- `_HARD_SEARCH_LIMIT = 500` from `_pages.py`. -/
def _HARD_SEARCH_LIMIT : Nat := 500

/-- `CACHE_LONG_TIMEOUT_SECS = 60 * 60 * 18` from `_pages.py`. -/
def CACHE_LONG_TIMEOUT_SECS : Nat := 60 * 60 * 18

/-- The CRS string `'EPSG:4326'` both GeoJSON routes reproject to. -/
def EPSG4326 : String := "EPSG:4326"

/-- `next_date` from `_pages.py`: `datetime(y+1, 1, 1)` when the month is
December, else `datetime(y, m+1, 1)`. -/
def next_date (date : Date) : Date :=
  if date.month = 12 then ⟨date.year + 1, 1, 1, 0, 0, 0⟩
  else ⟨date.year, date.month + 1, 1, 0, 0, 0⟩

/-- The linear month coordinate `12 * year + (month - 1)` of a date; two
dates lie in consecutive calendar months exactly when their coordinates
are consecutive. -/
def month_index (d : Date) : Nat := 12 * d.year + d.month - 1

/-- The GeoJSON `Feature` dict built by `dataset_to_feature`. -/
structure Feature (G : Type) where
  geometry : G
  id : Nat
  product : String
  time : Int
deriving DecidableEq, Repr

/-- The GeoJSON `FeatureCollection` dict built by `datasets_as_features`. -/
structure FeatureCollection (G : Type) where
  features : List (Feature G)
deriving DecidableEq, Repr

/-- The GeoJSON `Feature` dict built by `dataset_shape`: the union
geometry and the `properties.dataset_count` entry. -/
structure ShapeFeature (G : Type) where
  geometry : G
  dataset_count : Nat
deriving DecidableEq, Repr

/-- `dataset_to_feature` from `_pages.py`.  It is only ever called on
datasets that passed the `if ds.extent` filter, so the extent is read
with `Option.get!`. -/
def dataset_to_feature {G M : Type} [Inhabited G] (ops : GeomOps G) (ds : Dataset G M) :
    Feature G :=
  { geometry := ops.geo_interface (ops.to_crs ds.extent.get! EPSG4326)
    id := ds.id
    product := ds.type_name
    time := ds.center_time }

/-- The underlying (uncached) body of the `/api/datasets/<product>/<year>-<month>`
route `datasets_as_features`: search the index over the month's half-open
time range and keep one feature per dataset whose extent is not `None`.
`jsonify(jsonify_document(..))` is serialization only and is modelled as
the identity. -/
def datasets_as_features {E G M Q : Type} [Inhabited G] (ops : GeomOps G)
    (idx : Index E G M Q) (product : String) (year month : Nat) :
    Except E (FeatureCollection G) := do
  let start : Date := ⟨year, month, 1, 0, 0, 0⟩
  let time : TimeRange := ⟨start, next_date start⟩
  let datasets ← idx.search product time
  pure ⟨(datasets.filter (fun ds => ds.extent.isSome)).map (dataset_to_feature ops)⟩

/-- The underlying (uncached) body of the `/api/datasets/<product>/<year>-<month>/poly`
route `dataset_shape`: search the same month range, turn every non-`None`
extent into a shapely shape reprojected to EPSG:4326, and return the
`unary_union` of those shapes with `dataset_count` their number. -/
def dataset_shape {E G M Q : Type} [Inhabited G] (ops : GeomOps G)
    (idx : Index E G M Q) (product : String) (year month : Nat) :
    Except E (ShapeFeature G) := do
  let start : Date := ⟨year, month, 1, 0, 0, 0⟩
  let time : TimeRange := ⟨start, next_date start⟩
  let datasets ← idx.search product time
  let dataset_shapes := (datasets.filter (fun ds => ds.extent.isSome)).map
    (fun ds => ops.asShape (ops.to_crs ds.extent.get! EPSG4326))
  pure ⟨ops.geo_interface (ops.unary_union dataset_shapes), dataset_shapes.length⟩

/-- The per-function memo table installed by `@ttl_cache(ttl=...)`
(`cachetools.func.ttl_cache`): argument tuple `K` to cached value and the
timer reading at which it was stored. -/
structure TTLCache (K V : Type) where
  lookup : K → Option (V × Nat)

/-- The empty cache a freshly decorated function starts with. -/
def TTLCache.empty {K V : Type} : TTLCache K V := ⟨fun _ => none⟩

/-- Storing a freshly computed value under its argument tuple. -/
def TTLCache.store {K V : Type} [DecidableEq K] (c : TTLCache K V) (k : K) (v : V)
    (t : Nat) : TTLCache K V :=
  ⟨fun q => if q = k then some (v, t) else c.lookup q⟩

/-- What one call through a `ttl_cache` wrapper produces: the value (or
the exception that escaped), the memo table afterwards, and whether the
wrapped function itself was invoked (`queried = false` is a cache hit). -/
structure CallOut (E K V : Type) where
  result : Except E V
  cache : TTLCache K V
  queried : Bool

/-- One call through a `ttl_cache(ttl=ttl)` wrapper around `f`, at timer
reading `now`: a stored entry younger than `ttl` is returned without
invoking `f`; otherwise `f` is invoked, and on success its value is
stored under the argument tuple (cachetools does not cache a raised
exception). -/
def ttl_call {E K V : Type} [DecidableEq K] (ttl : Nat) (f : K → Except E V)
    (c : TTLCache K V) (k : K) (now : Nat) : CallOut E K V :=
  match c.lookup k with
  | some (v, stored) =>
    if now < stored + ttl then ⟨.ok v, c, false⟩
    else
      match f k with
      | .error e => ⟨.error e, c, true⟩
      | .ok v2 => ⟨.ok v2, c.store k v2 now, true⟩
  | none =>
    match f k with
    | .error e => ⟨.error e, c, true⟩
    | .ok v2 => ⟨.ok v2, c.store k v2 now, true⟩

/-- The route `datasets_as_features` as registered: its body behind
`ttl_cache(ttl=CACHE_LONG_TIMEOUT_SECS)`, keyed by `(product, year, month)`. -/
def datasets_as_features_cached {E G M Q : Type} [Inhabited G] (ops : GeomOps G)
    (idx : Index E G M Q) (c : TTLCache (String × Nat × Nat) (FeatureCollection G))
    (k : String × Nat × Nat) (now : Nat) :
    CallOut E (String × Nat × Nat) (FeatureCollection G) :=
  ttl_call CACHE_LONG_TIMEOUT_SECS
    (fun a => datasets_as_features ops idx a.1 a.2.1 a.2.2) c k now

/-- The route `dataset_shape` as registered: its body behind
`ttl_cache(ttl=CACHE_LONG_TIMEOUT_SECS)`, keyed by `(product, year, month)`. -/
def dataset_shape_cached {E G M Q : Type} [Inhabited G] (ops : GeomOps G)
    (idx : Index E G M Q) (c : TTLCache (String × Nat × Nat) (ShapeFeature G))
    (k : String × Nat × Nat) (now : Nat) :
    CallOut E (String × Nat × Nat) (ShapeFeature G) :=
  ttl_call CACHE_LONG_TIMEOUT_SECS
    (fun a => dataset_shape ops idx a.1 a.2.1 a.2.2) c k now

/-- The underlying (uncached) body of `_timeline_years`: the monthly
product counts from January 1 of `from_year` up to `datetime.utcnow()`
(the wall-clock date is an explicit argument here; `list(...)` is the
identity on the embedded result). -/
def _timeline_years {E G M Q : Type} (idx : Index E G M Q) (from_year : Nat)
    (product : String) (utcnow : Date) : Except E (List (TimeRange × Nat)) :=
  idx.count_product_through_time "1 month" product
    ⟨⟨from_year, 1, 1, 0, 0, 0⟩, utcnow⟩

/-- `_timeline_years` as defined: behind `ttl_cache(ttl=CACHE_LONG_TIMEOUT_SECS)`,
keyed by `(from_year, product)`. -/
def _timeline_years_cached {E G M Q : Type} (idx : Index E G M Q) (utcnow : Date)
    (c : TTLCache (Nat × String) (List (TimeRange × Nat))) (k : Nat × String)
    (now : Nat) : CallOut E (Nat × String) (List (TimeRange × Nat)) :=
  ttl_call CACHE_LONG_TIMEOUT_SECS (fun a => _timeline_years idx a.1 a.2 utcnow) c k now

/-- The underlying (uncached) body of `_timelines_platform`: per-product
monthly counts for a platform from January 1 1986 up to `datetime.utcnow()`. -/
def _timelines_platform {E G M Q : Type} (idx : Index E G M Q) (platform : String)
    (utcnow : Date) : Except E (List (String × List (TimeRange × Nat))) :=
  idx.count_by_product_through_time "1 month" platform
    ⟨⟨1986, 1, 1, 0, 0, 0⟩, utcnow⟩

/-- `_timelines_platform` as defined: behind
`ttl_cache(ttl=CACHE_LONG_TIMEOUT_SECS)`, keyed by the platform name. -/
def _timelines_platform_cached {E G M Q : Type} (idx : Index E G M Q) (utcnow : Date)
    (c : TTLCache String (List (String × List (TimeRange × Nat)))) (k : String)
    (now : Nat) : CallOut E String (List (String × List (TimeRange × Nat))) :=
  ttl_call CACHE_LONG_TIMEOUT_SECS (fun a => _timelines_platform idx a utcnow) c k now

/-- One step of Python's stable insertion of a dataset into a list already
sorted by `center_time`: the dataset goes in front of the first element
whose key is not below its own. -/
def insert_by_center_time {G M : Type} (d : Dataset G M) :
    List (Dataset G M) → List (Dataset G M)
  | [] => [d]
  | x :: xs =>
    if d.center_time ≤ x.center_time then d :: x :: xs
    else x :: insert_by_center_time d xs

/-- `sorted(datasets, key=lambda d: d.center_time)` from
`product_datasets_page`: a stable sort on `center_time`, modelled as
insertion sort (which is stable and agrees with CPython's stable sort up
to order of equal keys). -/
def sorted_by_center_time {G M : Type} :
    List (Dataset G M) → List (Dataset G M)
  | [] => []
  | x :: xs => insert_by_center_time x (sorted_by_center_time xs)

/-- Helper functions the pages call whose code is outside
`src/cubedash/_pages.py`: `utils.query_to_search` and
`utils.get_ordered_metadata` live in `cubedash._utils` (not part of the
sources here) and `build_dataset_info` in datacube; all three are kept
abstract — the claims do not depend on their internals. -/
structure Externals (G M Q D : Type) where
  query_to_search : List (String × String) → Product → Q
  build_dataset_info : Dataset G M → D
  get_ordered_metadata : M → M

/-- What `product_datasets_page` returns: the JSON document (one
`build_dataset_info` entry per dataset) when the request prefers JSON,
else the arguments handed to `render_template('datasets.html', ...)`. -/
inductive DatasetsPageOut (G M Q D : Type) where
  | json (datasets : List D)
  | html (products : List String) (selected_product : String)
      (selected_product_e : Product) (datasets : List (Dataset G M))
      (query_params : Q)

/-- The number of datasets in a `product_datasets_page` response. -/
def DatasetsPageOut.dataset_count {G M Q D : Type} :
    DatasetsPageOut G M Q D → Nat
  | .json ds => ds.length
  | .html _ _ _ ds _ => ds.length

/-- "The datasets of this response are listed in non-decreasing
`center_time` order": literal for the HTML branch, and through the
`build_dataset_info` image for the JSON branch. -/
def DatasetsPageOut.sorted_datasets {G M Q D : Type}
    (binfo : Dataset G M → D) : DatasetsPageOut G M Q D → Prop
  | .json infos => ∃ l : List (Dataset G M),
      l.Chain' (fun a b => a.center_time ≤ b.center_time) ∧ infos = l.map binfo
  | .html _ _ _ ds _ => ds.Chain' (fun a b => a.center_time ≤ b.center_time)

/-- The `/<product>/datasets` handler `product_datasets_page`: look the
product up (`get_by_name_unsafe` raises on an unknown name), build the
search query from the request args, search with `limit=_HARD_SEARCH_LIMIT`,
sort by `center_time`, and render as JSON or HTML depending on the
request's Accept header (`request_wants_json()`, embedded as the boolean
`wants_json` since it only reads request headers). -/
def product_datasets_page {E G M Q D : Type} (ext : Externals G M Q D)
    (idx : Index E G M Q) (product : String) (args : List (String × String))
    (wants_json : Bool) : Except E (DatasetsPageOut G M Q D) := do
  let product_entity ← idx.get_by_name_unsafe product
  let query := ext.query_to_search args product_entity
  let found ← idx.search_limited query _HARD_SEARCH_LIMIT
  let datasets := sorted_by_center_time found
  if wants_json then
    pure (.json (datasets.map ext.build_dataset_info))
  else do
    let types ← idx.get_all_types
    pure (.html (types.map Product.definition) product product_entity datasets query)

/-- The arguments `dataset_page` hands to `render_template('dataset.html', ...)`. -/
structure DatasetPageOut (G M : Type) where
  dataset : Dataset G M
  dataset_metadata : M
  derived_datasets : List (Dataset G M)
  source_datasets : List (String × Option (Dataset G M))

/-- The dict comprehension of `dataset_page`: one `index.datasets.get`
call per entry of `dataset.metadata.sources`, each fallible. -/
def get_source_datasets {E G M Q : Type} (idx : Index E G M Q) :
    List (String × Nat) → Except E (List (String × Option (Dataset G M)))
  | [] => pure []
  | (t, sid) :: rest => do
    let d ← idx.get sid false
    let others ← get_source_datasets idx rest
    pure ((t, d) :: others)

/-- The `/datasets/<uuid:id_>` handler `dataset_page`.  `index.datasets.get`
returns `None` for a missing id, and the handler's next line
(`dataset.metadata.sources`) then raises `AttributeError` — embedded as
the distinguished error `attr_error`, which nothing catches. -/
def dataset_page {E G M Q D : Type} (ext : Externals G M Q D)
    (idx : Index E G M Q) (attr_error : E) (id_ : Nat) :
    Except E (DatasetPageOut G M) := do
  let found ← idx.get id_ true
  match found with
  | none => .error attr_error
  | some dataset => do
    let source_datasets ← get_source_datasets idx dataset.metadata_sources
    let ordered_metadata := ext.get_ordered_metadata dataset.metadata_doc
    let derived ← idx.get_derived id_
    pure ⟨dataset, ordered_metadata, derived, source_datasets⟩

/-- The incoming requests the app routes, one constructor per `@app.route`
pattern of `_pages.py`. -/
inductive Request where
  | root
  | api_datasets (product : String) (year month : Nat)
  | api_dataset_shape (product : String) (year month : Nat)
  | spatial (product : String)
  | timeline (product : String)
  | datasets (product : String) (args : List (String × String)) (wants_json : Bool)
  | platform (platform : String)
  | dataset (id_ : Nat)

/-- A rendered response: one constructor per handler, carrying exactly
the data the handler serializes or hands to its template. -/
inductive Response (G M Q D : Type) where
  | redirect (endpoint : String) (product : String)
  | features (body : FeatureCollection G)
  | shape (body : ShapeFeature G)
  | spatial_html (products : List String) (selected_product : String)
  | timeline_html (timeline : List (TimeRange × Nat)) (products : List String)
      (selected_product : String)
  | datasets_page (body : DatasetsPageOut G M Q D)
  | platform_html (product_counts : List (String × List (TimeRange × Nat)))
      (products : List String) (platform : String)
  | dataset_html (body : DatasetPageOut G M)

/-- All state the process retains across requests: the four `ttl_cache`
memo tables.  (The module-level `index` connection is read-only and is
threaded separately by `handle`.) -/
structure AppState (G : Type) where
  features_cache : TTLCache (String × Nat × Nat) (FeatureCollection G)
  shape_cache : TTLCache (String × Nat × Nat) (ShapeFeature G)
  timeline_cache : TTLCache (Nat × String) (List (TimeRange × Nat))
  platform_cache : TTLCache String (List (String × List (TimeRange × Nat)))

/-- The whole app as one request step: dispatch a request at timer reading
`now` (cachetools' clock) and wall-clock date `utcnow`, returning the
response (or the exception that escaped the handler), the index the next
request sees and the retained state the next request sees. -/
def handle {E G M Q D : Type} [Inhabited G] (ops : GeomOps G)
    (ext : Externals G M Q D) (attr_error : E) (idx : Index E G M Q)
    (s : AppState G) (req : Request) (now : Nat) (utcnow : Date) :
    Except E (Response G M Q D) × Index E G M Q × AppState G :=
  match req with
  | .root => (.ok (.redirect "product_spatial_page" "ls7_level1_scene"), idx, s)
  | .api_datasets p y m =>
    let r := datasets_as_features_cached ops idx s.features_cache (p, y, m) now
    (r.result.map .features, idx, { s with features_cache := r.cache })
  | .api_dataset_shape p y m =>
    let r := dataset_shape_cached ops idx s.shape_cache (p, y, m) now
    (r.result.map .shape, idx, { s with shape_cache := r.cache })
  | .spatial p =>
    ((do
      let types ← idx.get_all_types
      pure (Response.spatial_html (types.map Product.definition) p)), idx, s)
  | .timeline p =>
    let r := _timeline_years_cached idx utcnow s.timeline_cache (1986, p) now
    ((do
      let tl ← r.result
      let types ← idx.get_all_types
      pure (Response.timeline_html tl (types.map Product.definition) p)),
     idx, { s with timeline_cache := r.cache })
  | .datasets p args wants_json =>
    ((product_datasets_page ext idx p args wants_json).map .datasets_page, idx, s)
  | .platform pf =>
    let r := _timelines_platform_cached idx utcnow s.platform_cache pf now
    ((do
      let counts ← r.result
      let types ← idx.get_all_types
      pure (Response.platform_html counts (types.map Product.definition) pf)),
     idx, { s with platform_cache := r.cache })
  | .dataset i =>
    ((dataset_page ext idx attr_error i).map .dataset_html, idx, s)

/-- The `(product, year, month)` key the request touches in
`datasets_as_features`' memo table, if any. -/
def features_key : Request → Option (String × Nat × Nat)
  | .api_datasets p y m => some (p, y, m)
  | _ => none

/-- The `(product, year, month)` key the request touches in
`dataset_shape`'s memo table, if any. -/
def shape_key : Request → Option (String × Nat × Nat)
  | .api_dataset_shape p y m => some (p, y, m)
  | _ => none

/-- The `(from_year, product)` key the request touches in
`_timeline_years`' memo table, if any (`product_timeline_page` always
passes `from_year = 1986`). -/
def timeline_key : Request → Option (Nat × String)
  | .timeline p => some (1986, p)
  | _ => none

/-- The platform key the request touches in `_timelines_platform`'s memo
table, if any. -/
def platform_key : Request → Option String
  | .platform pf => some pf
  | _ => none

/-- The fixed-TTL memoization contract with TTL `CACHE_LONG_TIMEOUT_SECS`,
for a cached operation `F` over its underlying query `f`: starting from a
cache with no entry for the argument tuple `k`, a first call at `t0`
invokes the query; a second call at any `t1` within the TTL window
returns the first call's result without invoking the query and leaves
the cache untouched; once the TTL has elapsed the query is invoked
afresh. -/
def TTLOk {E K V : Type} (F : TTLCache K V → K → Nat → CallOut E K V)
    (f : K → Except E V) : Prop :=
  ∀ (c : TTLCache K V) (k : K) (t0 t1 : Nat) (v0 : V),
    c.lookup k = none → f k = .ok v0 →
    ((F c k t0).result = .ok v0 ∧ (F c k t0).queried = true) ∧
    (t1 < t0 + CACHE_LONG_TIMEOUT_SECS →
      (F (F c k t0).cache k t1).result = .ok v0 ∧
      (F (F c k t0).cache k t1).queried = false ∧
      (F (F c k t0).cache k t1).cache = (F c k t0).cache) ∧
    (t0 + CACHE_LONG_TIMEOUT_SECS ≤ t1 →
      (F (F c k t0).cache k t1).result = f k ∧
      (F (F c k t0).cache k t1).queried = true)

/-- Concrete geometry operations on `G := Nat` used to evaluate the
route bodies on closed inputs. -/
def wOps : GeomOps Nat :=
  ⟨fun g _ => g + 1, fun g => g * 10, fun g => g + 3, fun l => l.sum⟩

/-- A concrete dataset with an extent. -/
def wDataset1 : Dataset Nat String := ⟨1, "ls7", 5, some 7, [("level1", 9)], "m1"⟩

/-- A concrete dataset without an extent (its feature is omitted). -/
def wDataset2 : Dataset Nat String := ⟨2, "ls7", 3, none, [], "m2"⟩

/-- A concrete index over `G := Nat` for evaluating the handlers. -/
def wIndex : Index String Nat String (List (String × String)) where
  search := fun _ _ => .ok [wDataset1, wDataset2]
  search_query := fun _ => .ok [wDataset1, wDataset2]
  count_product_through_time := fun _ _ _ => .ok []
  count_by_product_through_time := fun _ _ _ => .ok []
  get_by_name_unsafe := fun n =>
    if n = "ls7" then .ok ⟨"ls7", "def"⟩ else .error "KeyError"
  get_all_types := .ok [⟨"ls7", "def"⟩]
  get := fun i _ => if i = 1 then .ok (some wDataset1) else .ok none
  get_derived := fun _ => .ok []

/-- Concrete external helpers for evaluating the handlers. -/
def wExt : Externals Nat String (List (String × String)) Nat :=
  ⟨fun args _ => args, fun ds => ds.id, fun m => m⟩

/-! ## Theorems -/

theorem ok_bind {E α β : Type} (a : α) (f : α → Except E β) :
    (Except.ok a >>= f : Except E β) = f a := rfl

theorem error_bind {E α β : Type} (e : E) (f : α → Except E β) :
    (Except.error e >>= f : Except E β) = .error e := rfl

theorem map_ok {E α β : Type} (a : α) (f : α → β) :
    (Except.ok a : Except E α).map f = .ok (f a) := rfl

theorem map_error {E α β : Type} (e : E) (f : α → β) :
    ((Except.error e : Except E α).map f : Except E β) = .error e := rfl

theorem feature_filterMap {G M : Type} [Inhabited G] (ops : GeomOps G)
    (l : List (Dataset G M)) :
    (l.filter (fun ds => ds.extent.isSome)).map (dataset_to_feature ops) =
      l.filterMap (fun ds => ds.extent.map (fun e =>
        ⟨ops.geo_interface (ops.to_crs e EPSG4326), ds.id, ds.type_name,
          ds.center_time⟩)) := by
  induction l with
  | nil => rfl
  | cons x xs ih =>
    cases hx : x.extent with
    | none => simp [List.filter_cons, List.filterMap_cons, hx, ih]
    | some e =>
      simp [List.filter_cons, List.filterMap_cons, hx, ih, dataset_to_feature]

theorem shape_filterMap {G M : Type} [Inhabited G] (ops : GeomOps G)
    (l : List (Dataset G M)) :
    (l.filter (fun ds => ds.extent.isSome)).map
        (fun ds => ops.asShape (ops.to_crs ds.extent.get! EPSG4326)) =
      l.filterMap (fun ds => ds.extent.map
        (fun e => ops.asShape (ops.to_crs e EPSG4326))) := by
  induction l with
  | nil => rfl
  | cons x xs ih =>
    cases hx : x.extent with
    | none => simp [List.filter_cons, List.filterMap_cons, hx, ih]
    | some e => simp [List.filter_cons, List.filterMap_cons, hx, ih]

/-- Claim C2: the `/api/datasets/<product>/<year>-<month>` route returns a
FeatureCollection with exactly one Feature per dataset found by the index
search for that product and month whose extent is not null (datasets
without an extent are omitted), each Feature carrying the dataset's id,
its product type name and its center time, with geometry reprojected to
EPSG:4326. -/
theorem datasets_as_features_spec {E G M Q : Type} [Inhabited G]
    (ops : GeomOps G) (idx : Index E G M Q) (product : String)
    (year month : Nat) (l : List (Dataset G M))
    (h : idx.search product ⟨⟨year, month, 1, 0, 0, 0⟩,
      next_date ⟨year, month, 1, 0, 0, 0⟩⟩ = .ok l) :
    datasets_as_features ops idx product year month =
      .ok ⟨l.filterMap (fun ds => ds.extent.map (fun e =>
        ⟨ops.geo_interface (ops.to_crs e EPSG4326), ds.id, ds.type_name,
          ds.center_time⟩))⟩ := by
  simp only [datasets_as_features]
  rw [h, ok_bind, feature_filterMap]; rfl

theorem datasets_as_features_spec_witness :
    wIndex.search "ls7" ⟨⟨2019, 1, 1, 0, 0, 0⟩, next_date ⟨2019, 1, 1, 0, 0, 0⟩⟩ =
        .ok [wDataset1, wDataset2] ∧
    datasets_as_features wOps wIndex "ls7" 2019 1 =
      .ok ⟨[wDataset1, wDataset2].filterMap (fun ds => ds.extent.map (fun e =>
        ⟨wOps.geo_interface (wOps.to_crs e EPSG4326), ds.id, ds.type_name,
          ds.center_time⟩))⟩ :=
  ⟨rfl, datasets_as_features_spec wOps wIndex "ls7" 2019 1 [wDataset1, wDataset2] rfl⟩

/-- Claim C1: the `/api/datasets/<product>/<year>-<month>/poly` route
returns a Feature whose geometry is one `shapely.ops.unary_union` call
over the EPSG:4326-reprojected extents of exactly those datasets found
for the product and month that have a non-null extent, and whose
`properties.dataset_count` is the number of such datasets. -/
theorem dataset_shape_spec {E G M Q : Type} [Inhabited G]
    (ops : GeomOps G) (idx : Index E G M Q) (product : String)
    (year month : Nat) (l : List (Dataset G M))
    (h : idx.search product ⟨⟨year, month, 1, 0, 0, 0⟩,
      next_date ⟨year, month, 1, 0, 0, 0⟩⟩ = .ok l) :
    dataset_shape ops idx product year month =
      .ok ⟨ops.geo_interface (ops.unary_union (l.filterMap (fun ds =>
          ds.extent.map (fun e => ops.asShape (ops.to_crs e EPSG4326))))),
        l.countP (fun ds => ds.extent.isSome)⟩ := by
  simp only [dataset_shape]
  rw [h, ok_bind, shape_filterMap]
  have hc : ((l.filter (fun ds => ds.extent.isSome)).map
      (fun ds => ops.asShape (ops.to_crs ds.extent.get! EPSG4326))).length =
      l.countP (fun ds => ds.extent.isSome) := by
    rw [List.length_map, ← List.countP_eq_length_filter]
  rw [shape_filterMap] at hc
  rw [hc]; rfl

theorem dataset_shape_spec_witness :
    wIndex.search "ls7" ⟨⟨2019, 1, 1, 0, 0, 0⟩, next_date ⟨2019, 1, 1, 0, 0, 0⟩⟩ =
        .ok [wDataset1, wDataset2] ∧
    dataset_shape wOps wIndex "ls7" 2019 1 =
      .ok ⟨wOps.geo_interface (wOps.unary_union ([wDataset1, wDataset2].filterMap
          (fun ds => ds.extent.map (fun e => wOps.asShape (wOps.to_crs e EPSG4326))))),
        [wDataset1, wDataset2].countP (fun ds => ds.extent.isSome)⟩ :=
  ⟨rfl, dataset_shape_spec wOps wIndex "ls7" 2019 1 [wDataset1, wDataset2] rfl⟩

/-- Claim C6: for a date with a valid month, `next_date` returns the
first instant (day 1, midnight) of the following calendar month, rolling
December of year `y` over to January 1 of year `y + 1`; and the two
month routes query the index over exactly the half-open range from the
first of the requested month to the first of the next month (their
output depends on the index only through the search on that range). -/
theorem next_date_spec (d : Date) (h1 : 1 ≤ d.month) (h2 : d.month ≤ 12) :
    (month_index (next_date d) = month_index d + 1 ∧
      (next_date d).day = 1 ∧ (next_date d).hour = 0 ∧
      (next_date d).minute = 0 ∧ (next_date d).second = 0 ∧
      1 ≤ (next_date d).month ∧ (next_date d).month ≤ 12) ∧
    (∀ (E G M Q : Type) [Inhabited G] (ops : GeomOps G)
      (idx idx2 : Index E G M Q) (product : String) (year month : Nat),
      idx.search product ⟨⟨year, month, 1, 0, 0, 0⟩,
          next_date ⟨year, month, 1, 0, 0, 0⟩⟩ =
        idx2.search product ⟨⟨year, month, 1, 0, 0, 0⟩,
          next_date ⟨year, month, 1, 0, 0, 0⟩⟩ →
      datasets_as_features ops idx product year month =
          datasets_as_features ops idx2 product year month ∧
        dataset_shape ops idx product year month =
          dataset_shape ops idx2 product year month) := by
  constructor
  · unfold next_date month_index
    by_cases h12 : d.month = 12 <;> simp [h12] <;> omega
  · intro E G M Q _ ops idx idx2 product year month hs
    constructor
    · simp only [datasets_as_features]
      rw [hs]
    · simp only [dataset_shape]
      rw [hs]

theorem next_date_spec_witness :
    (1 ≤ (⟨2019, 12, 1, 0, 0, 0⟩ : Date).month ∧
      (⟨2019, 12, 1, 0, 0, 0⟩ : Date).month ≤ 12) ∧
    month_index (next_date ⟨2019, 12, 1, 0, 0, 0⟩) =
      month_index ⟨2019, 12, 1, 0, 0, 0⟩ + 1 :=
  ⟨⟨by decide, by decide⟩,
    (next_date_spec ⟨2019, 12, 1, 0, 0, 0⟩ (by decide) (by decide)).1.1⟩

theorem length_insert_by_center_time {G M : Type} (d : Dataset G M)
    (l : List (Dataset G M)) :
    (insert_by_center_time d l).length = l.length + 1 := by
  induction l with
  | nil => rfl
  | cons x xs ih =>
    simp only [insert_by_center_time]
    by_cases hd : d.center_time ≤ x.center_time
    · rw [if_pos hd]; rfl
    · rw [if_neg hd]
      simp [ih]

theorem length_sorted_by_center_time {G M : Type} (l : List (Dataset G M)) :
    (sorted_by_center_time l).length = l.length := by
  induction l with
  | nil => rfl
  | cons x xs ih =>
    simp only [sorted_by_center_time]
    rw [length_insert_by_center_time, ih]; rfl

theorem chain'_insert_by_center_time {G M : Type} (d : Dataset G M)
    (l : List (Dataset G M))
    (h : l.Chain' (fun a b => a.center_time ≤ b.center_time)) :
    (insert_by_center_time d l).Chain'
      (fun a b => a.center_time ≤ b.center_time) := by
  induction l with
  | nil => simp [insert_by_center_time]
  | cons x xs ih =>
    simp only [insert_by_center_time]
    by_cases hd : d.center_time ≤ x.center_time
    · rw [if_pos hd]
      exact List.chain'_cons.mpr ⟨hd, h⟩
    · rw [if_neg hd]
      have hxd : x.center_time ≤ d.center_time := le_of_not_le hd
      have hins := ih h.tail
      cases hxs : insert_by_center_time d xs with
      | nil => simp
      | cons y ys =>
        refine List.chain'_cons.mpr ⟨?_, hxs ▸ hins⟩
        cases xs with
        | nil =>
          simp only [insert_by_center_time] at hxs
          cases hxs
          exact hxd
        | cons z zs =>
          revert hxs
          simp only [insert_by_center_time]
          by_cases hz : d.center_time ≤ z.center_time
          · rw [if_pos hz]
            intro hxs
            cases hxs
            exact hxd
          · rw [if_neg hz]
            intro hxs
            cases hxs
            exact (List.chain'_cons.mp h).1

theorem chain'_sorted_by_center_time {G M : Type} (l : List (Dataset G M)) :
    (sorted_by_center_time l).Chain'
      (fun a b => a.center_time ≤ b.center_time) := by
  induction l with
  | nil => simp [sorted_by_center_time]
  | cons x xs ih => exact chain'_insert_by_center_time x _ ih

/-- Claim C8: the dataset list `product_datasets_page` hands to rendering
(the HTML template's `datasets` argument, or the underlying list of the
JSON document's `build_dataset_info` entries) is in non-decreasing
`center_time` order. -/
theorem product_datasets_page_sorted {E G M Q D : Type}
    (ext : Externals G M Q D) (idx : Index E G M Q) (product : String)
    (args : List (String × String)) (wants_json : Bool)
    (out : DatasetsPageOut G M Q D)
    (hpage : product_datasets_page ext idx product args wants_json = .ok out) :
    out.sorted_datasets ext.build_dataset_info := by
  unfold product_datasets_page at hpage
  cases hname : idx.get_by_name_unsafe product with
  | error e => rw [hname, error_bind] at hpage; cases hpage
  | ok pe =>
    rw [hname, ok_bind] at hpage
    simp only [Index.search_limited] at hpage
    cases hq : idx.search_query (ext.query_to_search args pe) with
    | error e => rw [hq, map_error, error_bind] at hpage; cases hpage
    | ok all =>
      rw [hq, map_ok, ok_bind] at hpage
      cases wants_json with
      | true =>
        rw [if_pos rfl] at hpage
        cases hpage
        exact ⟨sorted_by_center_time (all.take _HARD_SEARCH_LIMIT),
          chain'_sorted_by_center_time _, rfl⟩
      | false =>
        rw [if_neg Bool.false_ne_true] at hpage
        cases hall : idx.get_all_types with
        | error e => rw [hall, error_bind] at hpage; cases hpage
        | ok types =>
          rw [hall, ok_bind] at hpage
          cases hpage
          exact chain'_sorted_by_center_time _

theorem product_datasets_page_sorted_witness :
    DatasetsPageOut.sorted_datasets wExt.build_dataset_info
      (DatasetsPageOut.html ["def"] "ls7" ⟨"ls7", "def"⟩
        [wDataset2, wDataset1] ([] : List (String × String))) :=
  product_datasets_page_sorted wExt wIndex "ls7" [] false
    (.html ["def"] "ls7" ⟨"ls7", "def"⟩ [wDataset2, wDataset1] []) rfl

/-- Claim C7: `product_datasets_page` searches the index with the hard
limit `_HARD_SEARCH_LIMIT = 500`, so the dataset list it produces has
`min 500 (number of matching datasets)` entries — never more than 500,
with matches beyond the first 500 silently dropped. -/
theorem product_datasets_page_limit {E G M Q D : Type}
    (ext : Externals G M Q D) (idx : Index E G M Q) (product : String)
    (args : List (String × String)) (wants_json : Bool) (pe : Product)
    (all : List (Dataset G M)) (out : DatasetsPageOut G M Q D)
    (hname : idx.get_by_name_unsafe product = .ok pe)
    (hq : idx.search_query (ext.query_to_search args pe) = .ok all)
    (hpage : product_datasets_page ext idx product args wants_json = .ok out) :
    out.dataset_count = min _HARD_SEARCH_LIMIT all.length ∧
      out.dataset_count ≤ _HARD_SEARCH_LIMIT ∧ _HARD_SEARCH_LIMIT = 500 := by
  have hmain : out.dataset_count = min _HARD_SEARCH_LIMIT all.length := by
    unfold product_datasets_page at hpage
    rw [hname, ok_bind] at hpage
    simp only [Index.search_limited] at hpage
    rw [hq, map_ok, ok_bind] at hpage
    cases wants_json with
    | true =>
      rw [if_pos rfl] at hpage
      cases hpage
      simp only [DatasetsPageOut.dataset_count]
      rw [List.length_map, length_sorted_by_center_time, List.length_take]
    | false =>
      rw [if_neg Bool.false_ne_true] at hpage
      cases hall : idx.get_all_types with
      | error e => rw [hall, error_bind] at hpage; cases hpage
      | ok types =>
        rw [hall, ok_bind] at hpage
        cases hpage
        simp only [DatasetsPageOut.dataset_count]
        rw [length_sorted_by_center_time, List.length_take]
  exact ⟨hmain, by rw [hmain]; exact Nat.min_le_left _ _, rfl⟩

theorem product_datasets_page_limit_witness :
    wIndex.get_by_name_unsafe "ls7" = .ok ⟨"ls7", "def"⟩ ∧
    wIndex.search_query (wExt.query_to_search [] ⟨"ls7", "def"⟩) =
      .ok [wDataset1, wDataset2] ∧
    product_datasets_page wExt wIndex "ls7" [] true = .ok (.json [2, 1]) ∧
    (DatasetsPageOut.json (G := Nat) (M := String)
        (Q := List (String × String)) [2, 1]).dataset_count =
      min _HARD_SEARCH_LIMIT [wDataset1, wDataset2].length :=
  ⟨rfl, rfl, rfl,
    (product_datasets_page_limit wExt wIndex "ls7" [] true ⟨"ls7", "def"⟩
      [wDataset1, wDataset2] (.json [2, 1]) rfl rfl rfl).1⟩

/-- Claim C4: no handler catches, translates or recovers from an error:
an exception raised by the index during `product_datasets_page` (an
unknown product name in `get_by_name_unsafe`, or a failing search) or
during `dataset_page` (a failing `get`, a failing source lookup) escapes
the handler unchanged, and a missing dataset id makes `dataset_page`
fail with the uncaught attribute error on `None`. -/
theorem handlers_propagate_errors {E G M Q D : Type}
    (ext : Externals G M Q D) (idx : Index E G M Q) (attr_error : E) :
    (∀ (product : String) (args : List (String × String))
      (wants_json : Bool) (e : E),
      idx.get_by_name_unsafe product = .error e →
      product_datasets_page ext idx product args wants_json = .error e) ∧
    (∀ (product : String) (args : List (String × String))
      (wants_json : Bool) (pe : Product) (e : E),
      idx.get_by_name_unsafe product = .ok pe →
      idx.search_query (ext.query_to_search args pe) = .error e →
      product_datasets_page ext idx product args wants_json = .error e) ∧
    (∀ (id_ : Nat) (e : E),
      idx.get id_ true = .error e →
      dataset_page ext idx attr_error id_ = .error e) ∧
    (∀ (id_ : Nat),
      idx.get id_ true = .ok none →
      dataset_page ext idx attr_error id_ = .error attr_error) ∧
    (∀ (id_ : Nat) (ds : Dataset G M) (e : E),
      idx.get id_ true = .ok (some ds) →
      get_source_datasets idx ds.metadata_sources = .error e →
      dataset_page ext idx attr_error id_ = .error e) := by
  refine ⟨?_, ?_, ?_, ?_, ?_⟩
  · intro product args wants_json e h
    unfold product_datasets_page
    rw [h, error_bind]
  · intro product args wants_json pe e h1 h2
    unfold product_datasets_page
    rw [h1, ok_bind]
    simp only [Index.search_limited]
    rw [h2, map_error, error_bind]
  · intro id_ e h
    unfold dataset_page
    rw [h, error_bind]
  · intro id_ h
    unfold dataset_page
    rw [h, ok_bind]
  · intro id_ ds e h1 h2
    unfold dataset_page
    rw [h1, ok_bind]
    simp only
    rw [h2, error_bind]

theorem ttl_call_spec {E K V : Type} [DecidableEq K] (f : K → Except E V) :
    TTLOk (ttl_call CACHE_LONG_TIMEOUT_SECS f) f := by
  intro c k t0 t1 v0 hc hf
  have h1 : ttl_call CACHE_LONG_TIMEOUT_SECS f c k t0 =
      ⟨.ok v0, c.store k v0 t0, true⟩ := by
    simp [ttl_call, hc, hf]
  have hlook : (c.store k v0 t0).lookup k = some (v0, t0) := by
    simp [TTLCache.store]
  refine ⟨by rw [h1]; exact ⟨rfl, rfl⟩, ?_, ?_⟩
  · intro hlt
    have h2 : ttl_call CACHE_LONG_TIMEOUT_SECS f (c.store k v0 t0) k t1 =
        ⟨.ok v0, c.store k v0 t0, false⟩ := by
      simp [ttl_call, hlook, hlt]
    rw [h1]
    simp [h2]
  · intro hge
    have h2 : ttl_call CACHE_LONG_TIMEOUT_SECS f (c.store k v0 t0) k t1 =
        ⟨.ok v0, (c.store k v0 t0).store k v0 t1, true⟩ := by
      simp [ttl_call, hlook, Nat.not_lt.mpr hge, hf]
    rw [h1]
    simp [h2, hf]

/-- Claim C3: the four expensive operations (`datasets_as_features`,
`dataset_shape`, `_timeline_years`, `_timelines_platform`) are memoized
with the fixed TTL `CACHE_LONG_TIMEOUT_SECS = 64800` seconds: for any
argument tuple, a second call within the TTL window after a first
(querying) call returns the first call's cached result without querying
the index again, and once the TTL has elapsed the index is queried
afresh. -/
theorem cached_operations_ttl {E G M Q : Type} [Inhabited G]
    (ops : GeomOps G) (idx : Index E G M Q) (utcnow : Date) :
    CACHE_LONG_TIMEOUT_SECS = 64800 ∧
    TTLOk (datasets_as_features_cached ops idx)
      (fun a => datasets_as_features ops idx a.1 a.2.1 a.2.2) ∧
    TTLOk (dataset_shape_cached ops idx)
      (fun a => dataset_shape ops idx a.1 a.2.1 a.2.2) ∧
    TTLOk (_timeline_years_cached idx utcnow)
      (fun a => _timeline_years idx a.1 a.2 utcnow) ∧
    TTLOk (_timelines_platform_cached idx utcnow)
      (fun a => _timelines_platform idx a utcnow) :=
  ⟨rfl, ttl_call_spec _, ttl_call_spec _, ttl_call_spec _, ttl_call_spec _⟩

theorem ttl_call_lookup_ne {E K V : Type} [DecidableEq K] (ttl : Nat)
    (f : K → Except E V) (c : TTLCache K V) (k : K) (now : Nat) (k2 : K)
    (hne : k2 ≠ k) :
    (ttl_call ttl f c k now).cache.lookup k2 = c.lookup k2 := by
  unfold ttl_call
  cases hc : c.lookup k with
  | none =>
    cases hf : f k with
    | error e => rfl
    | ok v => simp [TTLCache.store, hne]
  | some p =>
    obtain ⟨v, stored⟩ := p
    dsimp only
    by_cases ht : now < stored + ttl
    · rw [if_pos ht]
    · rw [if_neg ht]
      cases hf : f k with
      | error e => rfl
      | ok v2 => simp [TTLCache.store, hne]

/-- Claim C5: a request step never mutates the index — the index handed
to the next request is the very index the step started from, every index
operation being a read — and the only retained state it touches are the
four fixed-TTL memo tables, each at most at the key made of the request's
own parameters (`(product, year, month)`, `(from_year, product)`, the
platform name): every other cache entry is left exactly as it was. -/
theorem handle_reads_only {E G M Q D : Type} [Inhabited G] (ops : GeomOps G)
    (ext : Externals G M Q D) (attr_error : E) (idx : Index E G M Q)
    (s : AppState G) (req : Request) (now : Nat) (utcnow : Date) :
    (handle ops ext attr_error idx s req now utcnow).2.1 = idx ∧
    (∀ k, features_key req ≠ some k →
      (handle ops ext attr_error idx s req now utcnow).2.2.features_cache.lookup k =
        s.features_cache.lookup k) ∧
    (∀ k, shape_key req ≠ some k →
      (handle ops ext attr_error idx s req now utcnow).2.2.shape_cache.lookup k =
        s.shape_cache.lookup k) ∧
    (∀ k, timeline_key req ≠ some k →
      (handle ops ext attr_error idx s req now utcnow).2.2.timeline_cache.lookup k =
        s.timeline_cache.lookup k) ∧
    (∀ k, platform_key req ≠ some k →
      (handle ops ext attr_error idx s req now utcnow).2.2.platform_cache.lookup k =
        s.platform_cache.lookup k) := by
  cases req with
  | root => exact ⟨rfl, fun _ _ => rfl, fun _ _ => rfl, fun _ _ => rfl, fun _ _ => rfl⟩
  | api_datasets p y m =>
    refine ⟨rfl, ?_, fun _ _ => rfl, fun _ _ => rfl, fun _ _ => rfl⟩
    intro k h
    exact ttl_call_lookup_ne _ _ _ _ _ _
      (fun he => h (congrArg some he.symm))
  | api_dataset_shape p y m =>
    refine ⟨rfl, fun _ _ => rfl, ?_, fun _ _ => rfl, fun _ _ => rfl⟩
    intro k h
    exact ttl_call_lookup_ne _ _ _ _ _ _
      (fun he => h (congrArg some he.symm))
  | spatial p =>
    exact ⟨rfl, fun _ _ => rfl, fun _ _ => rfl, fun _ _ => rfl, fun _ _ => rfl⟩
  | timeline p =>
    refine ⟨rfl, fun _ _ => rfl, fun _ _ => rfl, ?_, fun _ _ => rfl⟩
    intro k h
    exact ttl_call_lookup_ne _ _ _ _ _ _
      (fun he => h (congrArg some he.symm))
  | datasets p args wants_json =>
    exact ⟨rfl, fun _ _ => rfl, fun _ _ => rfl, fun _ _ => rfl, fun _ _ => rfl⟩
  | platform pf =>
    refine ⟨rfl, fun _ _ => rfl, fun _ _ => rfl, fun _ _ => rfl, ?_⟩
    intro k h
    exact ttl_call_lookup_ne _ _ _ _ _ _
      (fun he => h (congrArg some he.symm))
  | dataset i =>
    exact ⟨rfl, fun _ _ => rfl, fun _ _ => rfl, fun _ _ => rfl, fun _ _ => rfl⟩

end Cubedash
